import Mathlib

/-!
Verification development for the audit-event simulation engine of a
synthetic file-sharing honeypot application.

The embedding below translates the TypeScript sources
`src/server/utils/generators.ts` and `src/server/services/auditSimulator.ts`
into Lean definitions.  Randomness (`Math.random()`) is modelled by explicit
rational draws in `[0, 1)` passed as arguments; timers (`setInterval` /
`setTimeout`) are modelled by an explicit scheduler state holding the list of
pending timers with their kinds and numeric ids; the external persistence
layer (Prisma) is modelled as lists of rows plus an explicit failure flag,
with thrown store errors represented by `Except`.
-/

/-- Event types, from `EVENT_TYPES` in generators.ts:
`['login', 'download', 'failedLogin', 'failedDownload']`. -/
inductive EventType where
  | login
  | download
  | failedLogin
  | failedDownload
deriving DecidableEq, Repr

open EventType

/-- A user row as the simulator reads it (only `id` and, implicitly, recency
ordering are used by `generateEvent`). -/
structure User where
  id : String
deriving DecidableEq, Repr

/-- A file-sharing-link row as the simulator reads it (`id` and `ownerId`
are the fields used by `generateEvent` / `injectAttack`). -/
structure FileSharingLink where
  id : String
  ownerId : String
deriving DecidableEq, Repr

/-- The audit-log record created by `prisma.auditLog.create` in
auditSimulator.ts (`id` and `timestamp` are store-assigned and omitted). -/
structure AuditEvent where
  eventType : EventType
  userId : Option String
  fileId : Option String
  ipAddress : String
  userAgent : String
  details : Option String
deriving DecidableEq, Repr

/-- `USER_AGENTS` from generators.ts. -/
def USER_AGENTS : List String := [
  "Mozilla/5.0 (Windows NT 10.0; Win64; x64) AppleWebKit/537.36 (KHTML, like Gecko) Chrome/120.0.0.0 Safari/537.36",
  "Mozilla/5.0 (Macintosh; Intel Mac OS X 10_15_7) AppleWebKit/537.36 (KHTML, like Gecko) Chrome/120.0.0.0 Safari/537.36",
  "Mozilla/5.0 (Macintosh; Intel Mac OS X 10_15_7) AppleWebKit/605.1.15 (KHTML, like Gecko) Version/17.1 Safari/605.1.15",
  "Mozilla/5.0 (Windows NT 10.0; Win64; x64) AppleWebKit/537.36 (KHTML, like Gecko) Chrome/119.0.0.0 Safari/537.36",
  "Mozilla/5.0 (X11; Linux x86_64) AppleWebKit/537.36 (KHTML, like Gecko) Chrome/120.0.0.0 Safari/537.36"]

/-- `EVENT_TYPES` from generators.ts. -/
def EVENT_TYPES : List EventType := [login, download, failedLogin, failedDownload]

/-- A CIDR range `a.b.c.d/p`.  The source keeps these as strings and parses
them with `split('/')`, `split('.').map(Number)` and `parseInt`; the
embedding stores the already-parsed octets and prefix length. -/
structure CIDR where
  a : ℕ
  b : ℕ
  c : ℕ
  d : ℕ
  p : ℕ
deriving DecidableEq, Repr

/-- `AUSTRALIAN_IP_RANGES` from generators.ts, each string `a.b.c.d/p`
pre-parsed into a `CIDR` (e.g. the source literal `'1.128.0.0/11'` becomes
`⟨1, 128, 0, 0, 11⟩`). -/
def AUSTRALIAN_IP_RANGES : List CIDR := [
  ⟨1, 128, 0, 0, 11⟩,
  ⟨14, 0, 0, 0, 8⟩,
  ⟨27, 0, 0, 0, 8⟩,
  ⟨58, 6, 0, 0, 15⟩,
  ⟨101, 160, 0, 0, 11⟩,
  ⟨103, 1, 8, 0, 22⟩,
  ⟨110, 4, 0, 0, 14⟩,
  ⟨115, 64, 0, 0, 10⟩,
  ⟨124, 148, 0, 0, 14⟩,
  ⟨139, 130, 0, 0, 16⟩,
  ⟨150, 101, 0, 0, 16⟩,
  ⟨163, 47, 0, 0, 16⟩,
  ⟨175, 45, 0, 0, 16⟩,
  ⟨180, 150, 0, 0, 15⟩,
  ⟨202, 0, 0, 0, 11⟩]

/-- `getRandomElement` from generators.ts:
`array[Math.floor(Math.random() * array.length)]`.  The random draw is the
explicit argument `r`; for `r ∈ [0, 1)` the index is in range exactly when
the list is nonempty, so `none` corresponds to the empty-array case (where
the JS expression yields `undefined`). -/
def getRandomElement {α : Type} (l : List α) (r : ℚ) : Option α :=
  l[(⌊r * l.length⌋).toNat]?

/-- The 32-bit value `ip` built by the loop `ip = (ip << 8) | networkParts[i]`
in `generateRandomIP`. -/
def buildIP (c : CIDR) : ℕ :=
  [c.a, c.b, c.c, c.d].foldl (fun acc part => (acc <<< 8) ||| part) 0

/-- `hostBits = 32 - prefix` in `generateRandomIP`. -/
def hostBits (c : CIDR) : ℕ := 32 - c.p

/-- `hostMask = (1 << hostBits) - 1` in `generateRandomIP`. -/
def hostMask (c : CIDR) : ℕ := (1 <<< hostBits c) - 1

/-- `networkMask = ~hostMask` in `generateRandomIP`, read as an unsigned
32-bit value: JS bitwise NOT of `x` on int32 has the bit pattern
`2^32 - 1 - x` for `x < 2^32`. -/
def networkMask (c : CIDR) : ℕ := (2 ^ 32 - 1) - hostMask c

/-- The network address of a range: `ip & networkMask` with both operands
read as unsigned 32-bit values (bit-identical to the JS int32 computation). -/
def network32 (c : CIDR) : ℕ := buildIP c &&& networkMask c

/-- The broadcast address of a range: network bits with all host bits set. -/
def broadcast32 (c : CIDR) : ℕ := network32 c ||| hostMask c

/-- `maxHosts = Math.pow(2, hostBits) - 2` in `generateRandomIP`. -/
def maxHosts (c : CIDR) : ℕ := 2 ^ hostBits c - 2

/-- `randomHost = Math.floor(Math.random() * maxHosts) + 1` in
`generateRandomIP`, with the draw `rHost` explicit. -/
def randomHost (c : CIDR) (rHost : ℚ) : ℕ :=
  (⌊rHost * maxHosts c⌋).toNat + 1

/-- The 32-bit address computed by `generateRandomIP` in generators.ts:
`finalIP = (ip & networkMask) | randomHost`, after picking the range with
`getRandomElement(AUSTRALIAN_IP_RANGES)` (draw `rRange`) and the host offset
(draw `rHost`).  The `none` branch of the match is unreachable because the
range list is a nonempty constant. -/
def generateRandomIP32 (rRange rHost : ℚ) : ℕ :=
  match getRandomElement AUSTRALIAN_IP_RANGES rRange with
  | none => 0
  | some range => (buildIP range &&& networkMask range) ||| randomHost range rHost

/-- The dotted-quad rendering at the end of `generateRandomIP`:
`[(finalIP >>> 24) & 255, ..., finalIP & 255].join('.')`. -/
def renderIP (finalIP : ℕ) : String :=
  String.intercalate "." ([(finalIP >>> 24) &&& 255, (finalIP >>> 16) &&& 255,
    (finalIP >>> 8) &&& 255, finalIP &&& 255].map toString)

/-- `generateRandomIP` from generators.ts: the 32-bit address rendered as a
dotted-quad string. -/
def generateRandomIP (rRange rHost : ℚ) : String :=
  renderIP (generateRandomIP32 rRange rHost)

/-- The per-tick random draws consumed by `AuditSimulator.generateEvent`
(each field stands for one `Math.random()` call in the source, all in
`[0, 1)`). -/
structure RandDraws where
  initDraw : ℚ
  typeDraw : ℚ
  actorDraw : ℚ
  targetDraw : ℚ
  ownerDraw : ℚ
  ipRangeDraw : ℚ
  ipHostDraw : ℚ
  uaDraw : ℚ
deriving DecidableEq, Repr

/-- All draws of a `RandDraws` lie in `[0, 1)`, as `Math.random()` guarantees. -/
def validRand (r : RandDraws) : Prop :=
  (0 ≤ r.initDraw ∧ r.initDraw < 1) ∧
  (0 ≤ r.typeDraw ∧ r.typeDraw < 1) ∧
  (0 ≤ r.actorDraw ∧ r.actorDraw < 1) ∧
  (0 ≤ r.targetDraw ∧ r.targetDraw < 1) ∧
  (0 ≤ r.ownerDraw ∧ r.ownerDraw < 1) ∧
  (0 ≤ r.ipRangeDraw ∧ r.ipRangeDraw < 1) ∧
  (0 ≤ r.ipHostDraw ∧ r.ipHostDraw < 1) ∧
  (0 ≤ r.uaDraw ∧ r.uaDraw < 1)

/-- Event-type selection, lines 51-65 of auditSimulator.ts: the spike branch
`Math.random() < 0.7 ? 'failedLogin' : 'failedDownload'` and the steady-state
threshold ladder over a fresh uniform draw. -/
def selectEventType (isSpike : Bool) (rand : ℚ) : EventType :=
  if isSpike then
    if rand < 0.7 then failedLogin else failedDownload
  else
    if rand < 0.5 then download
    else if rand < 0.8 then login
    else if rand < 0.9 then failedDownload
    else failedLogin

/-- `AuditSimulator.generateEvent` (auditSimulator.ts lines 41-97), as the
pure event-descriptor computation: the caller persists the result when it is
`some`.  `users` / `files` are the bounded recent samples returned by
`getRandomUsers` / `getRandomFiles`.  The `match` on `getRandomElement users`
mirrors the `users.length > 0` guard (for draws in `[0, 1)` the two agree),
with the `none` branch being the source's early `return` that skips the
event.  `(… USER_AGENTS …).getD ""` mirrors `getRandomElement(USER_AGENTS)`,
which never falls off the constant nonempty pool for draws in `[0, 1)`. -/
def generateEvent (isSpike : Bool) (users : List User)
    (files : List FileSharingLink) (r : RandDraws) : Option AuditEvent :=
  -- line 46 `let eventType = getRandomElement(EVENT_TYPES)`: immediately
  -- overwritten by both branches of the if/else that follows; kept for
  -- fidelity to the source.
  let _initialType := getRandomElement EVENT_TYPES r.initDraw
  let eventType := selectEventType isSpike r.typeDraw
  if eventType = login ∨ eventType = failedLogin then
    match getRandomElement users r.actorDraw with
    | none => none
    | some u =>
      some {
        eventType := eventType
        userId := some u.id
        fileId := none
        ipAddress := generateRandomIP r.ipRangeDraw r.ipHostDraw
        userAgent := (getRandomElement USER_AGENTS r.uaDraw).getD ""
        details := some (if eventType = failedLogin
          then "Invalid password attempt" else "Successful login") }
  else
    match getRandomElement files r.targetDraw with
    | some file =>
      some {
        eventType := eventType
        userId := if r.ownerDraw < 0.3 then some file.ownerId else none
        fileId := some file.id
        ipAddress := generateRandomIP r.ipRangeDraw r.ipHostDraw
        userAgent := (getRandomElement USER_AGENTS r.uaDraw).getD ""
        details := some (if eventType = failedDownload
          then "Access denied - expired link" else "File downloaded successfully") }
    | none =>
      some {
        eventType := eventType
        userId := none
        fileId := none
        ipAddress := generateRandomIP r.ipRangeDraw r.ipHostDraw
        userAgent := (getRandomElement USER_AGENTS r.uaDraw).getD ""
        details := some (if eventType = failedDownload
          then "Access denied - expired link" else "File downloaded successfully") }

/-- The `{ success, message }` value returned by `AuditSimulator.injectAttack`. -/
structure AttackResult where
  success : Bool
  message : String
deriving DecidableEq, Repr

/-- One `setTimeout(async () => prisma.auditLog.create(...), index * intervalMs)`
scheduled by `injectAttack`: the delay in milliseconds and the event to
persist when the timer fires. -/
structure ScheduledWrite where
  delay : ℚ
  event : AuditEvent
deriving DecidableEq, Repr

/-- `AuditSimulator.injectAttack` (auditSimulator.ts lines 171-207): snapshot
of all file links, one origin address and one client signature drawn for the
whole burst, one scheduled write per file at `index * intervalMs`, and the
immediately-returned result.  `const intervalMs = 50000 / files.length` is
`Infinity` in JS when there are zero files (and never used, since zero
timeouts are scheduled); the ℚ division yields 0 there, equally unused. -/
def injectAttack (files : List FileSharingLink) (rIPRange rIPHost rUA : ℚ) :
    List ScheduledWrite × AttackResult :=
  let attackIP := generateRandomIP rIPRange rIPHost
  let userAgent := (getRandomElement USER_AGENTS rUA).getD ""
  let intervalMs : ℚ := 50000 / (files.length : ℚ)
  let writes := files.mapIdx (fun index file =>
    { delay := (index : ℚ) * intervalMs
      event := {
        eventType := download
        userId := none
        fileId := some file.id
        ipAddress := attackIP
        userAgent := userAgent
        details := some "File downloaded successfully - ATTACK SIMULATION" } })
  (writes,
    { success := true
      message := "Attack injection started - " ++ toString files.length ++
        " downloads from " ++ attackIP ++ " over 50 seconds" })

/-- A persisted audit-log row as the retention sweep sees it: its store id
and its `timestamp` in milliseconds since the epoch. -/
structure StoredLog where
  rowId : String
  timestamp : ℤ
deriving DecidableEq, Repr

/-- `AuditSimulator.cleanupOldLogs` (auditSimulator.ts lines 150-169), the
store effect: `retentionDays = parseInt(process.env.LOG_RETENTION_DAYS || '30')`
is `envRetention.getD 30`, the cutoff is `now - retentionDays * 24*60*60*1000`,
and `deleteMany({ where: { timestamp: { lt: cutoffDate } } })` removes exactly
the rows with `timestamp < cutoffDate`.  Returns the deleted count and the
remaining store contents. -/
def cleanupOldLogs (envRetention : Option ℕ) (now : ℤ) (logs : List StoredLog) :
    ℕ × List StoredLog :=
  let retentionDays : ℤ := (envRetention.getD 30 : ℕ)
  let cutoffDate : ℤ := now - retentionDays * (24 * 60 * 60 * 1000)
  ((logs.filter (fun l => l.timestamp < cutoffDate)).length,
    logs.filter (fun l => ¬(l.timestamp < cutoffDate)))

/-- The canned `details` string the steady generator attaches to each event
type (auditSimulator.ts lines 75 and 85). -/
def cannedDetail : EventType → String
  | login => "Successful login"
  | failedLogin => "Invalid password attempt"
  | download => "File downloaded successfully"
  | failedDownload => "Access denied - expired link"

/-- The kinds of timers `AuditSimulator` creates:
`steadyTick` is the `setInterval` in `start` (handle kept in `intervalId`);
`nextSpike` is the `setTimeout` in `scheduleNextSpike` (handle kept in
`spikeTimeoutId`); `spikeEnd` is the `setTimeout` in `startSpike` whose
handle the source discards; `cleanupTick` and `cleanupInitial` are the
`setInterval` / `setTimeout` in `startCleanupTask`, both with discarded
handles. -/
inductive TimerKind where
  | steadyTick
  | nextSpike
  | spikeEnd
  | cleanupTick
  | cleanupInitial
deriving DecidableEq, Repr

/-- A live timer: its numeric handle and what its callback does. -/
structure Timer where
  id : ℕ
  kind : TimerKind
deriving DecidableEq, Repr

/-- The mutable state of the `AuditSimulator` instance plus the runtime's
timer table: `intervalId`, `spikeTimeoutId` and `isSpike` are the class
fields; `pending` is the set of timers currently scheduled by the runtime;
`nextId` is the source of fresh timer handles. -/
structure SimState where
  intervalId : Option ℕ
  spikeTimeoutId : Option ℕ
  isSpike : Bool
  pending : List Timer
  nextId : ℕ
deriving DecidableEq, Repr

/-- The state at process start: no timers, `intervalId = spikeTimeoutId = null`,
`isSpike = false`. -/
def initialState : SimState := ⟨none, none, false, [], 0⟩

/-- `setInterval` / `setTimeout`: allocate a fresh handle and register the
timer; returns the handle (which the caller may keep or discard, exactly as
the source does). -/
def setTimer (s : SimState) (k : TimerKind) : ℕ × SimState :=
  (s.nextId,
    { s with pending := s.pending ++ [⟨s.nextId, k⟩], nextId := s.nextId + 1 })

/-- `clearInterval` / `clearTimeout` on a handle: deregister any timer with
that handle. -/
def clearTimer (s : SimState) (tid : ℕ) : SimState :=
  { s with pending := s.pending.filter (fun t => t.id ≠ tid) }

/-- `AuditSimulator.scheduleNextSpike` (lines 117-123): schedule the next
spike start and keep its handle in `spikeTimeoutId`. -/
def scheduleNextSpike (s : SimState) : SimState :=
  let idAndState := setTimer s TimerKind.nextSpike
  { idAndState.2 with spikeTimeoutId := some idAndState.1 }

/-- `AuditSimulator.startSpike` (lines 125-136): set `isSpike`, and schedule
the one-shot timer that will end the spike window — whose handle the source
discards (`setTimeout(...)` at line 131 is not assigned to any field). -/
def startSpike (s : SimState) : SimState :=
  (setTimer { s with isSpike := true } TimerKind.spikeEnd).2

/-- `AuditSimulator.startCleanupTask` (lines 138-148): the hourly
`setInterval` and the 10-second initial `setTimeout`, both with discarded
handles. -/
def startCleanupTask (s : SimState) : SimState :=
  (setTimer (setTimer s TimerKind.cleanupTick).2 TimerKind.cleanupInitial).2

/-- `AuditSimulator.start` (lines 16-28): create the steady `setInterval`
and keep its handle in `intervalId`, then `scheduleNextSpike` and
`startCleanupTask`. -/
def start (s : SimState) : SimState :=
  let idAndState := setTimer s TimerKind.steadyTick
  startCleanupTask (scheduleNextSpike
    { idAndState.2 with intervalId := some idAndState.1 })

/-- `AuditSimulator.stop` (lines 30-39): clear the steady interval handle
and the tracked spike timeout handle, nulling both fields. -/
def stop (s : SimState) : SimState :=
  let s1 :=
    match s.intervalId with
    | some tid => { clearTimer s tid with intervalId := none }
    | none => s
  match s1.spikeTimeoutId with
  | some tid => { clearTimer s1 tid with spikeTimeoutId := none }
  | none => s1

/-- A persistence operation successfully issued to the store. -/
inductive WriteOp where
  | createLog (e : AuditEvent)
  | deleteOlderThan (cutoff : ℤ)
deriving DecidableEq, Repr

/-- Whether a store operation is an event-generation write
(`prisma.auditLog.create`). -/
def WriteOp.isCreate : WriteOp → Bool
  | createLog _ => true
  | deleteOlderThan _ => false

/-- The environment a timer callback runs against: the reference data the
store would return, the tick's random draws, the clock, the retention
configuration, and whether the persistence layer fails (throws) on this
call. -/
structure Env where
  users : List User
  files : List FileSharingLink
  rand : RandDraws
  now : ℤ
  retentionEnv : Option ℕ
  storeFails : Bool

/-- `prisma.auditLog.create`: throws (modelled as `Except.error`) when the
persistence layer fails, otherwise performs the write. -/
def storeCreate (env : Env) (e : AuditEvent) : Except String WriteOp :=
  if env.storeFails then Except.error "store failure" else Except.ok (WriteOp.createLog e)

/-- `prisma.auditLog.deleteMany({ timestamp: { lt: cutoff } })`: throws when
the persistence layer fails, otherwise performs the bulk delete. -/
def storeDeleteOld (env : Env) (cutoff : ℤ) : Except String WriteOp :=
  if env.storeFails then Except.error "store failure" else Except.ok (WriteOp.deleteOlderThan cutoff)

/-- The body of the `try` block of `generateEvent` (lines 42-97): build the
event descriptor and, when one is produced, issue the store write; a store
throw propagates as `Except.error`. -/
def generateEventAttempt (isSpike : Bool) (env : Env) : Except String (List WriteOp) :=
  match generateEvent isSpike env.users env.files env.rand with
  | none => Except.ok []
  | some e =>
    match storeCreate env e with
    | Except.ok w => Except.ok [w]
    | Except.error msg => Except.error msg

/-- One steady-tick callback run, with the source's `try`/`catch` (lines
42-100): a store error is caught and logged (`console.error`), never
rethrown; the tick returns the successfully persisted operations and the
error log lines. -/
def generateEventTick (isSpike : Bool) (env : Env) : List WriteOp × List String :=
  match generateEventAttempt isSpike env with
  | Except.ok ws => (ws, [])
  | Except.error msg => ([], ["Error generating audit event: " ++ msg])

/-- The body of the `try` block of `cleanupOldLogs` (lines 151-165): compute
the cutoff and issue the bulk delete. -/
def cleanupOldLogsAttempt (env : Env) : Except String (List WriteOp) :=
  let retentionDays : ℤ := (env.retentionEnv.getD 30 : ℕ)
  let cutoffDate : ℤ := env.now - retentionDays * (24 * 60 * 60 * 1000)
  match storeDeleteOld env cutoffDate with
  | Except.ok w => Except.ok [w]
  | Except.error msg => Except.error msg

/-- One cleanup callback run with its `try`/`catch` (lines 150-169). -/
def cleanupOldLogsTick (env : Env) : List WriteOp × List String :=
  match cleanupOldLogsAttempt env with
  | Except.ok ws => (ws, [])
  | Except.error msg => ([], ["Error cleaning up old logs: " ++ msg])

/-- Whether a timer kind is a recurring `setInterval` (stays scheduled after
firing) as opposed to a one-shot `setTimeout`. -/
def isIntervalKind : TimerKind → Bool
  | TimerKind.steadyTick => true
  | TimerKind.cleanupTick => true
  | _ => false

/-- Fire one pending timer: one-shot timers are consumed, interval timers
stay; the callback is the one the source installs for that timer kind.
Returns the new state and the store operations the callback persisted. -/
def fireTimer (s : SimState) (t : Timer) (env : Env) : SimState × List WriteOp :=
  let s1 := if isIntervalKind t.kind then s else clearTimer s t.id
  match t.kind with
  | TimerKind.steadyTick => (s1, (generateEventTick s.isSpike env).1)
  | TimerKind.nextSpike => (startSpike s1, [])
  | TimerKind.spikeEnd => (scheduleNextSpike { s1 with isSpike := false }, [])
  | TimerKind.cleanupTick => (s1, (cleanupOldLogsTick env).1)
  | TimerKind.cleanupInitial => (s1, (cleanupOldLogsTick env).1)

/-- Fire the pending timer with handle `tid`, if any (firing a cancelled or
unknown handle is a no-op, as in the runtime). -/
def fireById (s : SimState) (tid : ℕ) (env : Env) : SimState × List WriteOp :=
  match s.pending.find? (fun t => t.id = tid) with
  | some t => fireTimer s t env
  | none => (s, [])

/-- Advance time by firing any sequence of timers (each with its own
environment), collecting every store operation performed. -/
def runFires (s : SimState) : List (ℕ × Env) → SimState × List WriteOp
  | [] => (s, [])
  | (tid, env) :: rest =>
      let fired := fireById s tid env
      let next := runFires fired.1 rest
      (next.1, fired.2 ++ next.2)

/-- Every pending steady-generation timer is tracked by `intervalId` (true
of every state the simulator actually reaches, since `start` records the
steady handle it creates and nothing else creates `steadyTick` timers). -/
def steadyTracked (s : SimState) : Prop :=
  ∀ t ∈ s.pending, t.kind = TimerKind.steadyTick → s.intervalId = some t.id

/-- No pending timer is a steady-generation timer. -/
def noSteadyPending (s : SimState) : Prop :=
  ∀ t ∈ s.pending, t.kind ≠ TimerKind.steadyTick

/-- From `s`, no matter which timers fire in which order and however the
environment behaves, no event-generation write is ever persisted. -/
def noEventWrites (s : SimState) : Prop :=
  ∀ fires : List (ℕ × Env), ∀ w ∈ (runFires s fires).2, w.isCreate = false

/-- For a draw in `[0, 1)` the index `Math.floor(r * n)` is a valid index
into a sequence of positive length `n`. -/
lemma toNat_floor_mul_lt {r : ℚ} {n : ℕ} (h0 : 0 ≤ r) (h1 : r < 1)
    (hn : 0 < n) : (⌊r * (n : ℚ)⌋).toNat < n := by
  have hnn : (0 : ℚ) < (n : ℚ) := by exact_mod_cast hn
  have hmul : r * (n : ℚ) < (n : ℚ) := by
    calc r * (n : ℚ) < 1 * (n : ℚ) := mul_lt_mul_of_pos_right h1 hnn
    _ = (n : ℚ) := one_mul _
  have hfl : ⌊r * (n : ℚ)⌋ < (n : ℤ) := Int.floor_lt.2 (by exact_mod_cast hmul)
  have hge : (0 : ℤ) ≤ ⌊r * (n : ℚ)⌋ := Int.floor_nonneg.2 (by positivity)
  omega

/-- `getRandomElement` on a nonempty list with a draw in `[0, 1)` returns an
element of the list. -/
lemma getRandomElement_mem {α : Type} {l : List α} {r : ℚ} (h0 : 0 ≤ r)
    (h1 : r < 1) (hne : l ≠ []) :
    ∃ x, getRandomElement l r = some x ∧ x ∈ l := by
  have hn : 0 < l.length := List.length_pos.2 hne
  have hlt := toNat_floor_mul_lt h0 h1 hn
  exact ⟨l[(⌊r * (l.length : ℚ)⌋).toNat], by
    simp [getRandomElement, List.getElem?_eq_getElem hlt], List.getElem_mem hlt⟩

/-- `getRandomElement` on the empty list returns `none` (the `undefined`
case in JS). -/
lemma getRandomElement_nil {α : Type} (r : ℚ) :
    getRandomElement ([] : List α) r = none := by
  simp [getRandomElement]

/-- Claim C2: with the spike flag set, the synthesized type is `failedLogin`
exactly on draws below 0.7 and `failedDownload` otherwise (never `login` or
plain `download`); in steady state the draw maps through the thresholds
0.5 / 0.8 / 0.9 to `download` / `login` / `failedDownload` / `failedLogin`. -/
theorem c2_event_type_selection (d : ℚ) (h0 : 0 ≤ d) (h1 : d < 1) :
    (selectEventType true d = failedLogin ↔ d < 0.7) ∧
    (selectEventType true d = failedDownload ↔ 0.7 ≤ d) ∧
    selectEventType true d ≠ login ∧
    selectEventType true d ≠ download ∧
    (selectEventType false d = download ↔ d < 0.5) ∧
    (selectEventType false d = login ↔ 0.5 ≤ d ∧ d < 0.8) ∧
    (selectEventType false d = failedDownload ↔ 0.8 ≤ d ∧ d < 0.9) ∧
    (selectEventType false d = failedLogin ↔ 0.9 ≤ d) := by
  unfold selectEventType
  split_ifs <;>
    refine ⟨?_, ?_, ?_, ?_, ?_, ?_, ?_, ?_⟩ <;>
    simp_all <;> intros <;> linarith

/-- Witness for C2 at the concrete draw 0. -/
theorem c2_event_type_selection_witness :
    (selectEventType true 0 = failedLogin ↔ (0 : ℚ) < 0.7) ∧
    (selectEventType true 0 = failedDownload ↔ (0.7 : ℚ) ≤ 0) ∧
    selectEventType true 0 ≠ login ∧
    selectEventType true 0 ≠ download ∧
    (selectEventType false 0 = download ↔ (0 : ℚ) < 0.5) ∧
    (selectEventType false 0 = login ↔ (0.5 : ℚ) ≤ 0 ∧ (0 : ℚ) < 0.8) ∧
    (selectEventType false 0 = failedDownload ↔ (0.8 : ℚ) ≤ 0 ∧ (0 : ℚ) < 0.9) ∧
    (selectEventType false 0 = failedLogin ↔ (0.9 : ℚ) ≤ 0) :=
  c2_event_type_selection 0 (le_refl 0) (by norm_num)

/-- When the selected type is `login`/`failedLogin`, `generateEvent` follows
the actor branch of the source (lines 67-75). -/
lemma generateEvent_login_branch (isSpike : Bool) (users : List User)
    (files : List FileSharingLink) (r : RandDraws)
    (hty : selectEventType isSpike r.typeDraw = login ∨
      selectEventType isSpike r.typeDraw = failedLogin) :
    generateEvent isSpike users files r =
      (getRandomElement users r.actorDraw).map (fun u =>
        { eventType := selectEventType isSpike r.typeDraw
          userId := some u.id
          fileId := none
          ipAddress := generateRandomIP r.ipRangeDraw r.ipHostDraw
          userAgent := (getRandomElement USER_AGENTS r.uaDraw).getD ""
          details := some (if selectEventType isSpike r.typeDraw = failedLogin
            then "Invalid password attempt" else "Successful login") }) := by
  simp only [generateEvent]
  rw [if_pos hty]
  cases getRandomElement users r.actorDraw <;> rfl

/-- When the selected type is `download`/`failedDownload`, `generateEvent`
follows the target branch of the source (lines 76-97). -/
lemma generateEvent_download_branch (isSpike : Bool) (users : List User)
    (files : List FileSharingLink) (r : RandDraws)
    (hty : ¬(selectEventType isSpike r.typeDraw = login ∨
      selectEventType isSpike r.typeDraw = failedLogin)) :
    generateEvent isSpike users files r =
      some (match getRandomElement files r.targetDraw with
      | some file =>
        { eventType := selectEventType isSpike r.typeDraw
          userId := if r.ownerDraw < 0.3 then some file.ownerId else none
          fileId := some file.id
          ipAddress := generateRandomIP r.ipRangeDraw r.ipHostDraw
          userAgent := (getRandomElement USER_AGENTS r.uaDraw).getD ""
          details := some (if selectEventType isSpike r.typeDraw = failedDownload
            then "Access denied - expired link" else "File downloaded successfully") }
      | none =>
        { eventType := selectEventType isSpike r.typeDraw
          userId := none
          fileId := none
          ipAddress := generateRandomIP r.ipRangeDraw r.ipHostDraw
          userAgent := (getRandomElement USER_AGENTS r.uaDraw).getD ""
          details := some (if selectEventType isSpike r.typeDraw = failedDownload
            then "Access denied - expired link" else "File downloaded successfully") }) := by
  simp only [generateEvent]
  rw [if_neg hty]
  cases getRandomElement files r.targetDraw <;> rfl

/-- A zero draw always picks the head of the pool. -/
lemma getRandomElement_zero {α : Type} (l : List α) : getRandomElement l 0 = l[0]? := by
  simp [getRandomElement]

/-- Concrete evaluation: draws (0, 0) pick range `1.128.0.0/11` and host
offset 1, producing the address 1.128.0.1. -/
lemma generateRandomIP32_zero : generateRandomIP32 0 0 = 25165825 := by
  have h1 : getRandomElement AUSTRALIAN_IP_RANGES 0 = some ⟨1, 128, 0, 0, 11⟩ := by
    rw [getRandomElement_zero]; rfl
  have h2 : randomHost ⟨1, 128, 0, 0, 11⟩ 0 = 1 := by
    simp [randomHost]
  simp only [generateRandomIP32, h1, h2]
  decide

/-- Concrete evaluation of the rendered address at draws (0, 0). -/
lemma generateRandomIP_zero : generateRandomIP 0 0 = "1.128.0.1" := by
  rw [generateRandomIP, generateRandomIP32_zero]
  rfl

/-- Concrete evaluation: a zero draw picks the first user-agent string. -/
lemma userAgent_at_zero : (getRandomElement USER_AGENTS 0).getD "" =
    "Mozilla/5.0 (Windows NT 10.0; Win64; x64) AppleWebKit/537.36 (KHTML, like Gecko) Chrome/120.0.0.0 Safari/537.36" := by
  rw [getRandomElement_zero]; rfl

/-- Concrete evaluation of a full steady tick with one user, no files and
all draws 0: a `download` event with null target and null actor. -/
lemma generateEvent_at_zero :
    generateEvent false [⟨"u1"⟩] [] ⟨0, 0, 0, 0, 0, 0, 0, 0⟩ = some
      { eventType := download
        userId := none
        fileId := none
        ipAddress := "1.128.0.1"
        userAgent := "Mozilla/5.0 (Windows NT 10.0; Win64; x64) AppleWebKit/537.36 (KHTML, like Gecko) Chrome/120.0.0.0 Safari/537.36"
        details := some "File downloaded successfully" } := by
  have hse : selectEventType false (0 : ℚ) = download := by
    norm_num [selectEventType]
  rw [generateEvent_download_branch false [⟨"u1"⟩] [] ⟨0, 0, 0, 0, 0, 0, 0, 0⟩
    (by simp [hse]), getRandomElement_nil]
  simp [hse, generateRandomIP_zero, userAgent_at_zero]

/-- Disjoint bitwise or is addition: an aligned network value or-ed with a
host offset below the host-bit range. -/
lemma aligned_lor_add {n hb r : ℕ} (hn : n % 2 ^ hb = 0) (hr : r < 2 ^ hb) :
    n ||| r = n + r := by
  obtain ⟨q, hq⟩ := Nat.dvd_of_mod_eq_zero hn
  subst hq
  exact (Nat.mul_add_lt_is_or hr q).symm

/-- Every configured range is CIDR-aligned (its host bits are zero) and has
at least two usable host addresses. -/
lemma ranges_aligned : ∀ c ∈ AUSTRALIAN_IP_RANGES,
    network32 c % 2 ^ hostBits c = 0 ∧ 4 ≤ 2 ^ hostBits c := by decide

lemma hostMask_eq (c : CIDR) : hostMask c = 2 ^ hostBits c - 1 := by
  simp [hostMask, Nat.shiftLeft_eq]

/-- Claim C1: when the selected type is `login` or `failedLogin`, an empty
user sample means no event is produced and nothing is persisted (and no
error is logged); a nonempty sample means the produced event carries the id
of the user drawn uniformly by `getRandomElement` from the sample. -/
theorem c1_login_events_require_actor (isSpike : Bool) (users : List User)
    (files : List FileSharingLink) (r : RandDraws) (hr : validRand r)
    (hty : selectEventType isSpike r.typeDraw = login ∨
      selectEventType isSpike r.typeDraw = failedLogin) :
    (users = [] → generateEvent isSpike users files r = none ∧
      ∀ env : Env, env.users = users → env.files = files → env.rand = r →
        generateEventTick isSpike env = ([], [])) ∧
    (users ≠ [] → ∃ u, getRandomElement users r.actorDraw = some u ∧ u ∈ users ∧
      ∃ e, generateEvent isSpike users files r = some e ∧ e.userId = some u.id) := by
  constructor
  · rintro rfl
    have hnone : generateEvent isSpike [] files r = none := by
      rw [generateEvent_login_branch isSpike [] files r hty, getRandomElement_nil]
      rfl
    refine ⟨hnone, ?_⟩
    intro env hu hf hrand
    simp [generateEventTick, generateEventAttempt, hu, hf, hrand, hnone]
  · intro hne
    obtain ⟨u, hu_eq, hu_mem⟩ := getRandomElement_mem hr.2.2.1.1 hr.2.2.1.2 hne
    refine ⟨u, hu_eq, hu_mem, ?_⟩
    rw [generateEvent_login_branch isSpike users files r hty, hu_eq]
    exact ⟨_, rfl, rfl⟩

/-- Witness for C1: one user, spike mode, all draws 0 (spike draw 0 selects
`failedLogin`). -/
theorem c1_login_events_require_actor_witness :
    (([⟨"u1"⟩] : List User) = [] →
      generateEvent true [⟨"u1"⟩] [] ⟨0, 0, 0, 0, 0, 0, 0, 0⟩ = none ∧
      ∀ env : Env, env.users = [⟨"u1"⟩] → env.files = [] →
        env.rand = ⟨0, 0, 0, 0, 0, 0, 0, 0⟩ → generateEventTick true env = ([], [])) ∧
    (([⟨"u1"⟩] : List User) ≠ [] → ∃ u,
      getRandomElement [⟨"u1"⟩] (0 : ℚ) = some u ∧ u ∈ ([⟨"u1"⟩] : List User) ∧
      ∃ e, generateEvent true [⟨"u1"⟩] [] ⟨0, 0, 0, 0, 0, 0, 0, 0⟩ = some e ∧
        e.userId = some u.id) :=
  c1_login_events_require_actor true [⟨"u1"⟩] [] ⟨0, 0, 0, 0, 0, 0, 0, 0⟩
    (by norm_num [validRand])
    (Or.inr (by norm_num [selectEventType]))

/-- Claim C8: for `download`/`failedDownload` the event is emitted even with
no file available (null target, null actor); with files available the target
is the file drawn uniformly by `getRandomElement` and the actor is that
file's owner exactly when the 0.3-draw hits. -/
theorem c8_download_target_selection (isSpike : Bool) (users : List User)
    (files : List FileSharingLink) (r : RandDraws) (hr : validRand r)
    (hty : selectEventType isSpike r.typeDraw = download ∨
      selectEventType isSpike r.typeDraw = failedDownload) :
    (files = [] → ∃ e, generateEvent isSpike users files r = some e ∧
      e.fileId = none ∧ e.userId = none) ∧
    (files ≠ [] → ∃ f, getRandomElement files r.targetDraw = some f ∧ f ∈ files ∧
      ∃ e, generateEvent isSpike users files r = some e ∧
        e.fileId = some f.id ∧
        e.userId = if r.ownerDraw < 0.3 then some f.ownerId else none) := by
  have hty2 : ¬(selectEventType isSpike r.typeDraw = login ∨
      selectEventType isSpike r.typeDraw = failedLogin) := by
    rcases hty with h | h <;> simp [h]
  constructor
  · rintro rfl
    rw [generateEvent_download_branch isSpike users [] r hty2, getRandomElement_nil]
    exact ⟨_, rfl, rfl, rfl⟩
  · intro hne
    obtain ⟨f, hf_eq, hf_mem⟩ := getRandomElement_mem hr.2.2.2.1.1 hr.2.2.2.1.2 hne
    refine ⟨f, hf_eq, hf_mem, ?_⟩
    rw [generateEvent_download_branch isSpike users files r hty2, hf_eq]
    exact ⟨_, rfl, rfl, rfl⟩

/-- Witness for C8: one file, steady state, all draws 0 (steady draw 0
selects `download`; owner draw 0 hits the 0.3 branch). -/
theorem c8_download_target_selection_witness :
    (([⟨"f1", "o1"⟩] : List FileSharingLink) = [] → ∃ e,
      generateEvent false [] [⟨"f1", "o1"⟩] ⟨0, 0, 0, 0, 0, 0, 0, 0⟩ = some e ∧
      e.fileId = none ∧ e.userId = none) ∧
    (([⟨"f1", "o1"⟩] : List FileSharingLink) ≠ [] → ∃ f,
      getRandomElement [⟨"f1", "o1"⟩] (0 : ℚ) = some f ∧
      f ∈ ([⟨"f1", "o1"⟩] : List FileSharingLink) ∧
      ∃ e, generateEvent false [] [⟨"f1", "o1"⟩] ⟨0, 0, 0, 0, 0, 0, 0, 0⟩ = some e ∧
        e.fileId = some f.id ∧
        e.userId = if (0 : ℚ) < 0.3 then some f.ownerId else none) :=
  c8_download_target_selection false [] [⟨"f1", "o1"⟩] ⟨0, 0, 0, 0, 0, 0, 0, 0⟩
    (by norm_num [validRand])
    (Or.inl (by norm_num [selectEventType]))

/-- Claim C10: every event the steady generator produces carries the
non-null canned detail string determined by its type and a client signature
drawn from the `USER_AGENTS` pool. -/
theorem c10_details_and_signature (isSpike : Bool) (users : List User)
    (files : List FileSharingLink) (r : RandDraws) (hr : validRand r) :
    ∀ e, generateEvent isSpike users files r = some e →
      e.details = some (cannedDetail e.eventType) ∧ e.userAgent ∈ USER_AGENTS := by
  intro e he
  have hua : (getRandomElement USER_AGENTS r.uaDraw).getD "" ∈ USER_AGENTS := by
    obtain ⟨x, hx_eq, hx_mem⟩ :=
      getRandomElement_mem hr.2.2.2.2.2.2.2.1 hr.2.2.2.2.2.2.2.2
        (show USER_AGENTS ≠ [] by simp [USER_AGENTS])
    rw [hx_eq]
    exact hx_mem
  by_cases hty : selectEventType isSpike r.typeDraw = login ∨
      selectEventType isSpike r.typeDraw = failedLogin
  · rw [generateEvent_login_branch isSpike users files r hty] at he
    cases hga : getRandomElement users r.actorDraw with
    | none => rw [hga] at he; exact absurd he (by simp)
    | some u =>
      rw [hga] at he
      simp only [Option.map_some'] at he
      obtain rfl := Option.some.inj he
      refine ⟨?_, hua⟩
      rcases hty with h | h <;> rw [h] <;> simp [cannedDetail]
  · rw [generateEvent_download_branch isSpike users files r hty] at he
    have hty2 : selectEventType isSpike r.typeDraw = download ∨
        selectEventType isSpike r.typeDraw = failedDownload := by
      cases hsel : selectEventType isSpike r.typeDraw <;> simp_all
    cases hga : getRandomElement files r.targetDraw with
    | none =>
      rw [hga] at he
      obtain rfl := Option.some.inj he
      refine ⟨?_, hua⟩
      rcases hty2 with h | h <;> rw [h] <;> simp [cannedDetail]
    | some f =>
      rw [hga] at he
      obtain rfl := Option.some.inj he
      refine ⟨?_, hua⟩
      rcases hty2 with h | h <;> rw [h] <;> simp [cannedDetail]

/-- Witness for C10 on the concrete tick of `generateEvent_at_zero`. -/
theorem c10_details_and_signature_witness :
    (some "File downloaded successfully" : Option String) =
      some (cannedDetail download) ∧
    "Mozilla/5.0 (Windows NT 10.0; Win64; x64) AppleWebKit/537.36 (KHTML, like Gecko) Chrome/120.0.0.0 Safari/537.36" ∈
      USER_AGENTS :=
  c10_details_and_signature false [⟨"u1"⟩] [] ⟨0, 0, 0, 0, 0, 0, 0, 0⟩
    (by norm_num [validRand])
    { eventType := download
      userId := none
      fileId := none
      ipAddress := "1.128.0.1"
      userAgent := "Mozilla/5.0 (Windows NT 10.0; Win64; x64) AppleWebKit/537.36 (KHTML, like Gecko) Chrome/120.0.0.0 Safari/537.36"
      details := some "File downloaded successfully" }
    generateEvent_at_zero

/-- Claim C6: every generated 32-bit address lies strictly between the
network and broadcast addresses of one of the configured CIDR ranges (the
host offset is drawn from `[1, 2^(32-prefix) - 2]` and combined with the
range's network bits). -/
theorem c6_ip_strictly_inside_range (rRange rHost : ℚ) (hR0 : 0 ≤ rRange)
    (hR1 : rRange < 1) (hH0 : 0 ≤ rHost) (hH1 : rHost < 1) :
    ∃ c ∈ AUSTRALIAN_IP_RANGES,
      network32 c < generateRandomIP32 rRange rHost ∧
      generateRandomIP32 rRange rHost < broadcast32 c := by
  obtain ⟨c, hc_eq, hc_mem⟩ := getRandomElement_mem hR0 hR1
    (show AUSTRALIAN_IP_RANGES ≠ [] by simp [AUSTRALIAN_IP_RANGES])
  obtain ⟨hal, hb4⟩ := ranges_aligned c hc_mem
  have hgen : generateRandomIP32 rRange rHost = network32 c ||| randomHost c rHost := by
    simp only [generateRandomIP32, hc_eq, network32]
  have hhost_le : randomHost c rHost ≤ maxHosts c := by
    unfold randomHost
    have hlt := toNat_floor_mul_lt hH0 hH1 (show 0 < maxHosts c by unfold maxHosts; omega)
    omega
  have hhost1 : 1 ≤ randomHost c rHost := by unfold randomHost; omega
  have hhost_lt : randomHost c rHost < 2 ^ hostBits c := by
    unfold maxHosts at hhost_le; omega
  have e1 : network32 c ||| randomHost c rHost = network32 c + randomHost c rHost :=
    aligned_lor_add hal hhost_lt
  have e2 : broadcast32 c = network32 c + (2 ^ hostBits c - 1) := by
    rw [broadcast32, hostMask_eq]
    exact aligned_lor_add hal (by omega)
  refine ⟨c, hc_mem, ?_, ?_⟩
  · rw [hgen, e1]; omega
  · rw [hgen, e1, e2]
    unfold maxHosts at hhost_le
    omega

/-- Witness for C6 at draws (0, 0). -/
theorem c6_ip_strictly_inside_range_witness :
    ∃ c ∈ AUSTRALIAN_IP_RANGES,
      network32 c < generateRandomIP32 0 0 ∧ generateRandomIP32 0 0 < broadcast32 c :=
  c6_ip_strictly_inside_range 0 0 (le_refl 0) (by norm_num) (le_refl 0) (by norm_num)

/-- Claim C7: after a cleanup run a row remains exactly when its timestamp
is at least `now - retentionDays` (in ms), with the retention defaulting to
30 days when the environment variable is absent. -/
theorem c7_retention_cleanup (envRetention : Option ℕ) (now : ℤ)
    (logs : List StoredLog) :
    (∀ l : StoredLog, l ∈ (cleanupOldLogs envRetention now logs).2 ↔
      l ∈ logs ∧ now - (envRetention.getD 30 : ℕ) * (24 * 60 * 60 * 1000) ≤ l.timestamp) ∧
    cleanupOldLogs none now logs = cleanupOldLogs (some 30) now logs := by
  refine ⟨?_, rfl⟩
  intro l
  simp [cleanupOldLogs, List.mem_filter, not_lt]

/-- Claim C4: with N files the injected attack schedules exactly N download
writes, the i-th for file i at delay `i * (50000 / N)` ms with null actor,
the attack-simulation detail string and the once-drawn shared
origin/signature, the last at `(N-1) * (50000 / N)` ms; the success result
is returned at once, independent of the scheduled burst. -/
theorem c4_attack_burst (files : List FileSharingLink) (rIPRange rIPHost rUA : ℚ)
    (hne : files ≠ []) :
    (injectAttack files rIPRange rIPHost rUA).1.length = files.length ∧
    (∀ (i : ℕ) (f : FileSharingLink), files[i]? = some f →
      (injectAttack files rIPRange rIPHost rUA).1[i]? = some
        { delay := (i : ℚ) * (50000 / (files.length : ℚ))
          event := {
            eventType := download
            userId := none
            fileId := some f.id
            ipAddress := generateRandomIP rIPRange rIPHost
            userAgent := (getRandomElement USER_AGENTS rUA).getD ""
            details := some "File downloaded successfully - ATTACK SIMULATION" } }) ∧
    ((injectAttack files rIPRange rIPHost rUA).1.getLast?.map (fun w => w.delay) =
      some (((files.length - 1 : ℕ) : ℚ) * (50000 / (files.length : ℚ)))) ∧
    (injectAttack files rIPRange rIPHost rUA).2 =
      { success := true
        message := "Attack injection started - " ++ toString files.length ++
          " downloads from " ++ generateRandomIP rIPRange rIPHost ++ " over 50 seconds" } := by
  have hwrites : ∀ (i : ℕ) (f : FileSharingLink), files[i]? = some f →
      (injectAttack files rIPRange rIPHost rUA).1[i]? = some
        { delay := (i : ℚ) * (50000 / (files.length : ℚ))
          event := {
            eventType := download
            userId := none
            fileId := some f.id
            ipAddress := generateRandomIP rIPRange rIPHost
            userAgent := (getRandomElement USER_AGENTS rUA).getD ""
            details := some "File downloaded successfully - ATTACK SIMULATION" } } := by
    intro i f hf
    have hi : i < files.length := by
      by_contra hcon
      rw [List.getElem?_eq_none (le_of_not_lt hcon)] at hf
      exact absurd hf (by simp)
    have hfi : files[i] = f := by
      rw [List.getElem?_eq_getElem hi] at hf
      exact Option.some.inj hf
    have hi2 : i < (injectAttack files rIPRange rIPHost rUA).1.length := by
      simpa [injectAttack] using hi
    rw [List.getElem?_eq_getElem hi2]
    simp [injectAttack, List.getElem_mapIdx, hfi]
  refine ⟨by simp [injectAttack], hwrites, ?_, rfl⟩
  have hlen : 0 < files.length := List.length_pos.2 hne
  have hlast : files[files.length - 1]? = some files[files.length - 1] :=
    List.getElem?_eq_getElem (by omega)
  have hl2 : (injectAttack files rIPRange rIPHost rUA).1.length = files.length := by
    simp [injectAttack]
  rw [List.getLast?_eq_getElem?, hl2, hwrites (files.length - 1) _ hlast]
  rfl

/-- Witness for C4 on a concrete two-file snapshot with all draws 0. -/
theorem c4_attack_burst_witness :
    (injectAttack [⟨"f1", "o1"⟩, ⟨"f2", "o2"⟩] 0 0 0).1.length =
      ([⟨"f1", "o1"⟩, ⟨"f2", "o2"⟩] : List FileSharingLink).length ∧
    (∀ (i : ℕ) (f : FileSharingLink),
      ([⟨"f1", "o1"⟩, ⟨"f2", "o2"⟩] : List FileSharingLink)[i]? = some f →
      (injectAttack [⟨"f1", "o1"⟩, ⟨"f2", "o2"⟩] 0 0 0).1[i]? = some
        { delay := (i : ℚ) *
            (50000 / (([⟨"f1", "o1"⟩, ⟨"f2", "o2"⟩] : List FileSharingLink).length : ℚ))
          event := {
            eventType := download
            userId := none
            fileId := some f.id
            ipAddress := generateRandomIP 0 0
            userAgent := (getRandomElement USER_AGENTS 0).getD ""
            details := some "File downloaded successfully - ATTACK SIMULATION" } }) ∧
    ((injectAttack [⟨"f1", "o1"⟩, ⟨"f2", "o2"⟩] 0 0 0).1.getLast?.map (fun w => w.delay) =
      some (((([⟨"f1", "o1"⟩, ⟨"f2", "o2"⟩] : List FileSharingLink).length - 1 : ℕ) : ℚ) *
        (50000 / (([⟨"f1", "o1"⟩, ⟨"f2", "o2"⟩] : List FileSharingLink).length : ℚ)))) ∧
    (injectAttack [⟨"f1", "o1"⟩, ⟨"f2", "o2"⟩] 0 0 0).2 =
      { success := true
        message := "Attack injection started - " ++
          toString ([⟨"f1", "o1"⟩, ⟨"f2", "o2"⟩] : List FileSharingLink).length ++
          " downloads from " ++ generateRandomIP 0 0 ++ " over 50 seconds" } :=
  c4_attack_burst [⟨"f1", "o1"⟩, ⟨"f2", "o2"⟩] 0 0 0 (by simp)

/-- Claim C3 counterexample: on an empty file snapshot `injectAttack`
schedules nothing and succeeds, but the result is the generic
"Attack injection started - 0 downloads ..." message: there is no
special-cased "no files to attack" result and no zero-file guard on the
`50000 / files.length` division in the source. -/
theorem c3_counterexample :
    (injectAttack [] 0 0 0).1 = [] ∧
    (injectAttack [] 0 0 0).2.success = true ∧
    (injectAttack [] 0 0 0).2.message =
      "Attack injection started - 0 downloads from 1.128.0.1 over 50 seconds" := by
  refine ⟨rfl, rfl, ?_⟩
  simp only [injectAttack]
  rw [generateRandomIP_zero]
  rfl

/-- Claim C3 (amended): with an empty file snapshot `injectAttack` returns a
success result without throwing and schedules no writes, for any draws; the
unguarded `50000 / 0` (JS `Infinity`) is never used because zero timers are
scheduled. -/
theorem c3_zero_files_noop (rIPRange rIPHost rUA : ℚ) :
    (injectAttack [] rIPRange rIPHost rUA).1 = [] ∧
    (injectAttack [] rIPRange rIPHost rUA).2.success = true :=
  ⟨rfl, rfl⟩

/-- Cleanup callbacks only ever issue bulk-delete store operations, never
event-generation writes. -/
lemma cleanupTick_writes_not_create (env : Env) :
    ∀ w ∈ (cleanupOldLogsTick env).1, w.isCreate = false := by
  intro w hw
  by_cases h : env.storeFails <;>
    simp [cleanupOldLogsTick, cleanupOldLogsAttempt, storeDeleteOld, h] at hw
  rw [hw]
  rfl

/-- A failing store means a steady tick persists nothing. -/
lemma generateEventTick_writes_empty_of_fail (isSpike : Bool) (env : Env)
    (hf : env.storeFails = true) : (generateEventTick isSpike env).1 = [] := by
  cases hgen : generateEvent isSpike env.users env.files env.rand <;>
    simp [generateEventTick, generateEventAttempt, hgen, storeCreate, hf]

/-- Firing any timer from a state with no pending steady timer leaves no
pending steady timer and persists no event-generation write (spike timers
only toggle the flag and reschedule; cleanup timers only delete). -/
lemma fireById_no_create (s : SimState) (tid : ℕ) (env : Env)
    (hns : noSteadyPending s) :
    noSteadyPending (fireById s tid env).1 ∧
    ∀ w ∈ (fireById s tid env).2, w.isCreate = false := by
  unfold fireById
  cases hfind : s.pending.find? (fun t => t.id = tid) with
  | none => exact ⟨hns, by simp⟩
  | some t =>
    have ht_mem : t ∈ s.pending := List.mem_of_find?_eq_some hfind
    have ht_ns : t.kind ≠ TimerKind.steadyTick := hns t ht_mem
    cases hk : t.kind with
    | steadyTick => exact absurd hk ht_ns
    | nextSpike =>
      constructor
      · intro t2 ht2
        simp [fireTimer, hk, isIntervalKind, startSpike, setTimer, clearTimer,
          List.mem_filter] at ht2
        rcases ht2 with ⟨h1, _⟩ | h1
        · exact hns t2 h1
        · rw [h1]; simp
      · simp [fireTimer, hk]
    | spikeEnd =>
      constructor
      · intro t2 ht2
        simp [fireTimer, hk, isIntervalKind, scheduleNextSpike, setTimer, clearTimer,
          List.mem_filter] at ht2
        rcases ht2 with ⟨h1, _⟩ | h1
        · exact hns t2 h1
        · rw [h1]; simp
      · simp [fireTimer, hk]
    | cleanupTick =>
      constructor
      · intro t2 ht2
        simp only [fireTimer, hk, isIntervalKind] at ht2
        exact hns t2 ht2
      · intro w hw
        simp only [fireTimer, hk, isIntervalKind] at hw
        exact cleanupTick_writes_not_create env w hw
    | cleanupInitial =>
      constructor
      · intro t2 ht2
        simp [fireTimer, hk, isIntervalKind, clearTimer, List.mem_filter] at ht2
        exact hns t2 ht2.1
      · intro w hw
        simp only [fireTimer, hk, isIntervalKind] at hw
        exact cleanupTick_writes_not_create env w hw

/-- No fire sequence from a state with no pending steady timer ever
persists an event-generation write. -/
lemma runFires_no_create : ∀ (fires : List (ℕ × Env)) (s : SimState),
    noSteadyPending s → ∀ w ∈ (runFires s fires).2, w.isCreate = false := by
  intro fires
  induction fires with
  | nil => intro s _ w hw; simp [runFires] at hw
  | cons p rest ih =>
    rcases p with ⟨tid, env⟩
    intro s hns w hw
    obtain ⟨hns2, hnc⟩ := fireById_no_create s tid env hns
    simp only [runFires, List.mem_append] at hw
    rcases hw with h | h
    · exact hnc w h
    · exact ih (fireById s tid env).1 hns2 w h

/-- `stop` removes every pending steady timer whenever the tracked-handle
invariant holds. -/
lemma stop_noSteady (s : SimState) (htr : steadyTracked s) :
    noSteadyPending (stop s) := by
  intro t ht hkind
  cases h1 : s.intervalId with
  | none =>
    have ht_orig : t ∈ s.pending := by
      cases h2 : s.spikeTimeoutId with
      | none => simpa [stop, h1, h2] using ht
      | some tid2 =>
        simp [stop, h1, h2, clearTimer, List.mem_filter] at ht
        exact ht.1
    exact absurd (htr t ht_orig hkind) (by simp [h1])
  | some tid1 =>
    cases h2 : s.spikeTimeoutId with
    | none =>
      simp [stop, h1, h2, clearTimer, List.mem_filter] at ht
      have heq := h1.symm.trans (htr t ht.1 hkind)
      exact ht.2 (Option.some.inj heq).symm
    | some tid2 =>
      simp [stop, h1, h2, clearTimer, List.mem_filter] at ht
      have heq := h1.symm.trans (htr t ht.1 hkind)
      exact ht.2.2 (Option.some.inj heq).symm

/-- Claim C5 (amended): `stop()` clears the tracked steady interval handle
and the tracked upcoming-spike handle (both fields become null, and no
steady timer stays pending under the tracked-handle invariant), and after
`stop()` no event-generation write is ever persisted, however far time
advances and whichever remaining timers fire. -/
theorem c5_stop_halts_event_generation (s : SimState) (htr : steadyTracked s) :
    noSteadyPending (stop s) ∧
    (stop s).intervalId = none ∧
    (stop s).spikeTimeoutId = none ∧
    noEventWrites (stop s) := by
  refine ⟨stop_noSteady s htr, ?_, ?_, ?_⟩
  · cases h1 : s.intervalId <;> cases h2 : s.spikeTimeoutId <;>
      simp [stop, h1, h2, clearTimer]
  · cases h1 : s.intervalId <;> cases h2 : s.spikeTimeoutId <;>
      simp [stop, h1, h2, clearTimer]
  · intro fires
    exact runFires_no_create fires (stop s) (stop_noSteady s htr)

/-- Claim C5 counterexample: start the simulator, let the next-spike timer
(handle 1) fire — beginning a spike window and scheduling the spike-end
one-shot with discarded handle 4 — then call `stop()`: the spike-end timer
is still pending, so a single `stop()` does not cancel every pending spike
timer. -/
theorem c5_counterexample :
    Timer.mk 4 TimerKind.spikeEnd ∈
      (stop (fireById (start initialState) 1
        ⟨[], [], ⟨0, 0, 0, 0, 0, 0, 0, 0⟩, 0, none, false⟩).1).pending := by
  decide

/-- Witness for the amended C5 on the state reached by `start` followed by
the next-spike timer firing. -/
theorem c5_stop_halts_event_generation_witness :
    steadyTracked (fireById (start initialState) 1
      ⟨[], [], ⟨0, 0, 0, 0, 0, 0, 0, 0⟩, 0, none, false⟩).1 ∧
    noEventWrites (stop (fireById (start initialState) 1
      ⟨[], [], ⟨0, 0, 0, 0, 0, 0, 0, 0⟩, 0, none, false⟩).1) :=
  ⟨by unfold steadyTracked; decide,
    (c5_stop_halts_event_generation _ (by unfold steadyTracked; decide)).2.2.2⟩

/-- Claim C9: when the persistence layer fails, the steady-tick write and
the cleanup delete are caught at the call site and logged (one error line,
no successful writes, no retry within the tick), no exception escapes the
callback (`generateEventTick` / `cleanupOldLogsTick` return the caught
result), and firing the recurring steady or cleanup timer on a failing
store leaves the simulator state completely unchanged, so the loops keep
ticking. -/
theorem c9_store_failure_tolerated (s : SimState) (env : Env) (isSpike : Bool)
    (hf : env.storeFails = true) :
    (∀ e, generateEvent isSpike env.users env.files env.rand = some e →
      generateEventTick isSpike env =
        ([], ["Error generating audit event: store failure"])) ∧
    cleanupOldLogsTick env = ([], ["Error cleaning up old logs: store failure"]) ∧
    (∀ (tid : ℕ) (t : Timer), s.pending.find? (fun x => x.id = tid) = some t →
      (t.kind = TimerKind.steadyTick ∨ t.kind = TimerKind.cleanupTick) →
      fireById s tid env = (s, [])) := by
  refine ⟨?_, ?_, ?_⟩
  · intro e he
    simp [generateEventTick, generateEventAttempt, he, storeCreate, hf]
  · simp [cleanupOldLogsTick, cleanupOldLogsAttempt, storeDeleteOld, hf]
  · intro tid t hfind hk
    unfold fireById
    rw [hfind]
    have hw := generateEventTick_writes_empty_of_fail s.isSpike env hf
    rcases hk with hk | hk <;>
      simp [fireTimer, hk, isIntervalKind, hw, cleanupOldLogsTick,
        cleanupOldLogsAttempt, storeDeleteOld, hf]

/-- Witness for C9: the started simulator with one user and a failing
store. -/
theorem c9_store_failure_tolerated_witness :
    (∀ e, generateEvent false [⟨"u1"⟩] []
        ⟨0, 0, 0, 0, 0, 0, 0, 0⟩ = some e →
      generateEventTick false ⟨[⟨"u1"⟩], [], ⟨0, 0, 0, 0, 0, 0, 0, 0⟩, 0, none, true⟩ =
        ([], ["Error generating audit event: store failure"])) ∧
    cleanupOldLogsTick ⟨[⟨"u1"⟩], [], ⟨0, 0, 0, 0, 0, 0, 0, 0⟩, 0, none, true⟩ =
      ([], ["Error cleaning up old logs: store failure"]) ∧
    (∀ (tid : ℕ) (t : Timer),
      (start initialState).pending.find? (fun x => x.id = tid) = some t →
      (t.kind = TimerKind.steadyTick ∨ t.kind = TimerKind.cleanupTick) →
      fireById (start initialState) tid
        ⟨[⟨"u1"⟩], [], ⟨0, 0, 0, 0, 0, 0, 0, 0⟩, 0, none, true⟩ =
        (start initialState, [])) :=
  c9_store_failure_tolerated (start initialState)
    ⟨[⟨"u1"⟩], [], ⟨0, 0, 0, 0, 0, 0, 0, 0⟩, 0, none, true⟩ false rfl
